import Mathlib

/-!
Verification of the authentication handshake of a SolidJS + Beyond Identity
sample application (OAuth2 authorization-code flow with PKCE).

The embedding translates the two source files:
- src/lib/index.ts: the server actions getUser, passkeyAuth, authExchange, logout;
- the Login route component that receives the provider callback.

Modelling conventions:
- Node crypto (createHash, digest, base64url) is embedded as an executable
  SHA-256 over byte lists plus base64 encoders, checked below against the
  standard test vectors.
- The ambient collaborators (session store via getSession and update, fetch,
  the user database) are modelled by explicit parameters: the initial session
  data, error outcomes for the store operations, an outcome for the fetch and
  for response JSON parsing, and a lookup function for the database.
- Every action returns the value produced for the caller, the session data as
  left behind, and a trace of observable events (store access, console output,
  network requests, discarded redirect Response values).
- In @solidjs/router, redirect(url) merely constructs a Response value; unless
  that value is returned or thrown, execution continues. The source calls
  redirect("/") as a bare statement in three places, and the embedding keeps
  that control flow: the call is recorded as a redirectDiscarded event and the
  following statements still run.
-/

/-- Reduce a natural number to a 32-bit word. -/
def w32 (n : Nat) : Nat := n % 4294967296

/-- Rotate a 32-bit word right by n bits. -/
def rotr (n x : Nat) : Nat := w32 ((x >>> n) ||| (x <<< (32 - n)))

/-- Bitwise complement on 32-bit words. -/
def bnot32 (x : Nat) : Nat := Nat.xor x 4294967295

/-- Big sigma 0 of SHA-256. -/
def bsig0 (x : Nat) : Nat := Nat.xor (Nat.xor (rotr 2 x) (rotr 13 x)) (rotr 22 x)

/-- Big sigma 1 of SHA-256. -/
def bsig1 (x : Nat) : Nat := Nat.xor (Nat.xor (rotr 6 x) (rotr 11 x)) (rotr 25 x)

/-- Small sigma 0 of SHA-256. -/
def ssig0 (x : Nat) : Nat := Nat.xor (Nat.xor (rotr 7 x) (rotr 18 x)) (x >>> 3)

/-- Small sigma 1 of SHA-256. -/
def ssig1 (x : Nat) : Nat := Nat.xor (Nat.xor (rotr 17 x) (rotr 19 x)) (x >>> 10)

/-- Choice function of SHA-256. -/
def chF (x y z : Nat) : Nat := Nat.xor (Nat.land x y) (Nat.land (bnot32 x) z)

/-- Majority function of SHA-256. -/
def majF (x y z : Nat) : Nat := Nat.xor (Nat.xor (Nat.land x y) (Nat.land x z)) (Nat.land y z)

/-- Round constants of SHA-256. -/
def sha256K : List Nat :=
  [1116352408, 1899447441, 3049323471, 3921009573, 961987163, 1508970993,
   2453635748, 2870763221, 3624381080, 310598401, 607225278, 1426881987,
   1925078388, 2162078206, 2614888103, 3248222580, 3835390401, 4022224774,
   264347078, 604807628, 770255983, 1249150122, 1555081692, 1996064986,
   2554220882, 2821834349, 2952996808, 3210313671, 3336571891, 3584528711,
   113926993, 338241895, 666307205, 773529912, 1294757372, 1396182291,
   1695183700, 1986661051, 2177026350, 2456956037, 2730485921, 2820302411,
   3259730800, 3345764771, 3516065817, 3600352804, 4094571909, 275423344,
   430227734, 506948616, 659060556, 883997877, 958139571, 1322822218,
   1537002063, 1747873779, 1955562222, 2024104815, 2227730452, 2361852424,
   2428436474, 2756734187, 3204031479, 3329325298]

/-- Working state of the SHA-256 compression function, eight 32-bit words. -/
structure Hash8 where
  a : Nat
  b : Nat
  c : Nat
  d : Nat
  e : Nat
  f : Nat
  g : Nat
  h : Nat
deriving DecidableEq

/-- Initial hash value of SHA-256. -/
def sha256H0 : Hash8 :=
  ⟨1779033703, 3144134277, 1013904242, 2773480762,
   1359893119, 2600822924, 528734635, 1541459225⟩

/-- One round of the SHA-256 compression function on a key-plus-schedule word. -/
def sha256Round (s : Hash8) (kw : Nat) : Hash8 :=
  let t1 := w32 (s.h + bsig1 s.e + chF s.e s.f s.g + kw)
  let t2 := w32 (bsig0 s.a + majF s.a s.b s.c)
  ⟨w32 (t1 + t2), s.a, s.b, s.c, w32 (s.d + t1), s.e, s.f, s.g⟩

/-- Extend the 16 message words by the given number of schedule words. -/
def extendW (w : List Nat) : Nat → List Nat
  | 0 => w
  | n + 1 =>
      let t := w.length
      let nw := w32 (ssig1 (w.getD (t - 2) 0) + w.getD (t - 7) 0 +
        ssig0 (w.getD (t - 15) 0) + w.getD (t - 16) 0)
      extendW (w ++ [nw]) n

/-- Group bytes four at a time into big-endian 32-bit words. -/
def toWords : List Nat → List Nat
  | b0 :: b1 :: b2 :: b3 :: rest => (((b0 * 256 + b1) * 256 + b2) * 256 + b3) :: toWords rest
  | _ => []

/-- Compress one 64-byte block into the running hash state. -/
def sha256Compress (s : Hash8) (block : List Nat) : Hash8 :=
  let ws := extendW (toWords block) 48
  let kws := List.zipWith (fun k w => w32 (k + w)) sha256K ws
  let t := kws.foldl sha256Round s
  ⟨w32 (s.a + t.a), w32 (s.b + t.b), w32 (s.c + t.c), w32 (s.d + t.d),
   w32 (s.e + t.e), w32 (s.f + t.f), w32 (s.g + t.g), w32 (s.h + t.h)⟩

/-- Big-endian 8-byte encoding of a length in bits. -/
def beBytes8 (n : Nat) : List Nat :=
  [(n >>> 56) % 256, (n >>> 48) % 256, (n >>> 40) % 256, (n >>> 32) % 256,
   (n >>> 24) % 256, (n >>> 16) % 256, (n >>> 8) % 256, n % 256]

/-- SHA-256 padding: a 0x80 byte, zeros to 56 mod 64, and the bit length. -/
def padMessage (msg : List Nat) : List Nat :=
  msg ++ [128] ++ List.replicate ((119 - msg.length % 64) % 64) 0 ++ beBytes8 (8 * msg.length)

/-- Fuel-indexed splitting of a byte list into blocks of 64. -/
def chunksGo : Nat → List Nat → List (List Nat)
  | 0, _ => []
  | _, [] => []
  | fuel + 1, l => l.take 64 :: chunksGo fuel (l.drop 64)

/-- Split a byte list into blocks of 64 bytes. -/
def chunks64 (l : List Nat) : List (List Nat) := chunksGo l.length l

/-- Big-endian bytes of one 32-bit word. -/
def wordBytes (w : Nat) : List Nat :=
  [(w >>> 24) % 256, (w >>> 16) % 256, (w >>> 8) % 256, w % 256]

/-- The 32 digest bytes of a final hash state. -/
def digestBytes (s : Hash8) : List Nat :=
  wordBytes s.a ++ wordBytes s.b ++ wordBytes s.c ++ wordBytes s.d ++
  wordBytes s.e ++ wordBytes s.f ++ wordBytes s.g ++ wordBytes s.h

/-- SHA-256 of a byte list, as in createHash applied to sha256 in Node crypto. -/
def sha256 (msg : List Nat) : List Nat :=
  digestBytes ((chunks64 (padMessage msg)).foldl sha256Compress sha256H0)

/-- UTF-8 bytes of one character. -/
def utf8Bytes (c : Char) : List Nat :=
  let n := c.toNat
  if n < 128 then [n]
  else if n < 2048 then [192 ||| (n >>> 6), 128 ||| (n &&& 63)]
  else if n < 65536 then [224 ||| (n >>> 12), 128 ||| ((n >>> 6) &&& 63), 128 ||| (n &&& 63)]
  else [240 ||| (n >>> 18), 128 ||| ((n >>> 12) &&& 63), 128 ||| ((n >>> 6) &&& 63),
    128 ||| (n &&& 63)]

/-- UTF-8 bytes of a string, the byte view Node crypto hashes. -/
def strBytes (s : String) : List Nat := (s.data.map utf8Bytes).flatten

/-- Alphabet of the URL-safe base64 variant used by toString base64url. -/
def b64urlTable : List Char :=
  "ABCDEFGHIJKLMNOPQRSTUVWXYZabcdefghijklmnopqrstuvwxyz0123456789-_".data

/-- Character of the URL-safe base64 alphabet at a 6-bit index. -/
def b64c (i : Nat) : Char := b64urlTable.getD (i % 64) 'A'

/-- URL-safe base64 encoding without padding, as Buffer toString base64url. -/
def base64urlEncode : List Nat → List Char
  | b0 :: b1 :: b2 :: rest =>
      b64c (b0 / 4) :: b64c ((b0 % 4) * 16 + b1 / 16) :: b64c ((b1 % 16) * 4 + b2 / 64) ::
        b64c (b2 % 64) :: base64urlEncode rest
  | [b0, b1] => [b64c (b0 / 4), b64c ((b0 % 4) * 16 + b1 / 16), b64c ((b1 % 16) * 4)]
  | [b0] => [b64c (b0 / 4), b64c ((b0 % 4) * 16)]
  | [] => []

/-- Alphabet of standard base64 used by btoa. -/
def b64stdTable : List Char :=
  "ABCDEFGHIJKLMNOPQRSTUVWXYZabcdefghijklmnopqrstuvwxyz0123456789+/".data

/-- Character of the standard base64 alphabet at a 6-bit index. -/
def b64s (i : Nat) : Char := b64stdTable.getD (i % 64) 'A'

/-- Standard base64 encoding with padding, as produced by btoa. -/
def base64stdEncode : List Nat → List Char
  | b0 :: b1 :: b2 :: rest =>
      b64s (b0 / 4) :: b64s ((b0 % 4) * 16 + b1 / 16) :: b64s ((b1 % 16) * 4 + b2 / 64) ::
        b64s (b2 % 64) :: base64stdEncode rest
  | [b0, b1] => [b64s (b0 / 4), b64s ((b0 % 4) * 16 + b1 / 16), b64s ((b1 % 16) * 4), '=']
  | [b0] => [b64s (b0 / 4), b64s ((b0 % 4) * 16), '=', '=']
  | [] => []

/-- The btoa builtin: standard base64 over the code points of the string. -/
def btoa (s : String) : String := String.mk (base64stdEncode (s.data.map Char.toNat))

/-- PKCE challenge derivation from lines 55 to 58 of the source: createHash
applied to sha256, update with the verifier, digest, toString base64url. -/
def deriveChallenge (verifier : String) : String :=
  String.mk (base64urlEncode (sha256 (strBytes verifier)))

/-- Known-answer check of the SHA-256 embedding on the standard abc vector. -/
example : sha256 (strBytes "abc") =
    [186, 120, 22, 191, 143, 1, 207, 234, 65, 65, 64, 222, 93, 174, 34, 35,
     176, 3, 97, 163, 150, 23, 122, 156, 180, 16, 255, 97, 242, 0, 21, 173] := by decide

/-- Known-answer check of the full challenge pipeline on the empty string. -/
example : deriveChallenge "" = "47DEQpj8HBSa-_TImW-5JCeuQeRkm5NMpJWZG3hSuFU" := by decide

/-- Session data carried by the cookie session: the CSRF token, the PKCE
verifier and the authenticated user id, each possibly absent. -/
structure SessionData where
  state_value : Option String
  code_verifier : Option String
  userId : Option Nat
deriving DecidableEq

/-- Environment configuration read from process.env; a field is none when the
variable is unset. -/
structure Env where
  APP_REDIRECT_URI : Option String
  BI_TENANT_ID : Option String
  BI_REALM_ID : Option String
  BI_APPLICATION_ID : Option String
  BI_CLIENT_ID : Option String
  BI_CLIENT_SECRET : Option String
deriving DecidableEq

/-- Bare template-string interpolation of a possibly undefined value, which
renders the word undefined when the value is absent. -/
def jsStr : Option String → String
  | some s => s
  | none => "undefined"

/-- The pattern value-or-empty-string applied to environment variables. -/
def envOr (o : Option String) : String := o.getD ""

/-- A user record as returned by the database, with the two fields the source
projects out. -/
structure User where
  id : Nat
  username : String
deriving DecidableEq

/-- Parsed JSON body of the token response; all fields optional, as the source
only destructures them. -/
structure TokenJson where
  access_token : Option String
  token_type : Option String
  expires_in : Option Nat
  scope : Option String
  id_token : Option String
deriving DecidableEq

/-- The POST request the source assembles for the token endpoint. -/
structure TokenRequest where
  url : String
  method : String
  contentType : String
  authorization : String
  body : String
deriving DecidableEq

/-- Observable events of one action execution. -/
inductive Event where
  | sessionGet
  | consoleLog (msg : String)
  | redirectDiscarded (url : String)
  | fetchPost (req : TokenRequest)
  | sessionUpdated (d : SessionData)
  | logoutCall
  | dbFindUser (id : Nat)
  | logValues (v : TokenJson)
deriving DecidableEq

/-- Outcome of the fetch to the token endpoint followed by json parsing: the
fetch itself may throw, and otherwise yields a status plus either a JSON
parse error or a parsed body. The source never consults the status. -/
inductive FetchOutcome where
  | netError (e : String)
  | jsonError (status : Nat) (e : String)
  | jsonOk (status : Nat) (v : TokenJson)
deriving DecidableEq

/-- Value an action delivers to its caller: a returned error value, a returned
or thrown redirect Response, a returned user object, or undefined. -/
inductive ActionResult where
  | errorReturned (e : String)
  | redirectReturned (url : String)
  | redirectThrown (url : String)
  | userReturned (id : Nat) (username : String)
  | unitReturned
deriving DecidableEq

/-- Token endpoint URL from line 106 of the source, with bare interpolation of
the three path identifiers. -/
def tokenURL (env : Env) : String :=
  "https://auth-us.beyondidentity.com/v1/tenants/" ++ jsStr env.BI_TENANT_ID ++
  "/realms/" ++ jsStr env.BI_REALM_ID ++ "/applications/" ++ jsStr env.BI_APPLICATION_ID ++
  "/token"

/-- Authorize endpoint URL from line 64 of the source. -/
def authorizeURL (env : Env) (redirectURI state codeChallenge : String) : String :=
  "https://auth-us.beyondidentity.com/v1/tenants/" ++ jsStr env.BI_TENANT_ID ++
  "/realms/" ++ jsStr env.BI_REALM_ID ++ "/applications/" ++ jsStr env.BI_APPLICATION_ID ++
  "/authorize?response_type=code&client_id=" ++ jsStr env.BI_CLIENT_ID ++
  "&redirect_uri=" ++ redirectURI ++ "&scope=openid&state=" ++ state ++
  "&code_challenge_method=S256&code_challenge=" ++ codeChallenge

/-- Uppercase hexadecimal digit. -/
def hexDigit (n : Nat) : Char := "0123456789ABCDEF".data.getD (n % 16) '0'

/-- Percent-encoding of one byte. -/
def percentByte (b : Nat) : String := String.mk ['%', hexDigit (b / 16), hexDigit (b % 16)]

/-- Characters the encodeURI builtin leaves intact: ASCII letters and digits
plus the reserved and unreserved marks, given here by code point. -/
def encodeURIKeeps (c : Char) : Bool :=
  c.isAlphanum ||
  [59, 44, 47, 63, 58, 64, 38, 61, 43, 36, 45, 95, 46, 33, 126, 42, 39, 40, 41, 35].contains
    c.toNat

/-- The encodeURI builtin: keep allowed characters, percent-encode the UTF-8
bytes of the rest. -/
def encodeURI (s : String) : String :=
  String.join (s.data.map (fun c =>
    if encodeURIKeeps c then String.mk [c] else String.join ((utf8Bytes c).map percentByte)))

/-- The token endpoint request as assembled on lines 105 to 115 of the source:
a POST with form content type, HTTP Basic authorization via btoa over
client id colon client secret, and the grant parameters in the body. The
code verifier comes from the session and interpolates as undefined when
absent. -/
def tokenRequest (env : Env) (code : String) (codeVerifier : Option String) : TokenRequest :=
  { url := tokenURL env
    method := "POST"
    contentType := "application/x-www-form-urlencoded"
    authorization := "Basic " ++ btoa (envOr env.BI_CLIENT_ID ++ ":" ++ envOr env.BI_CLIENT_SECRET)
    body := "grant_type=authorization_code&code=" ++ code ++ "&code_verifier=" ++
      jsStr codeVerifier ++ "&redirect_uri=" ++ encodeURI (envOr env.APP_REDIRECT_URI) }

/-- The authExchange server action, lines 83 to 139 of the source. The state
comparison on line 90 guards only a console.log and a bare redirect call
whose Response is discarded, so execution continues into the fetch in every
case where getSession succeeded; this is the control flow of the source,
which neither returns nor throws in that branch. No session write occurs
anywhere in the action. The trailing bare redirect call on line 138 is
likewise discarded and the action returns undefined. -/
def authExchange (env : Env) (code state : String) (init : SessionData)
    (getErr : Option String) (fetchOut : FetchOutcome) :
    ActionResult × SessionData × List Event :=
  match getErr with
  | some e => (.errorReturned e, init, [.sessionGet])
  | none =>
    let ev1 : List Event :=
      if init.state_value = some state then [.sessionGet]
      else [.sessionGet, .consoleLog "Session is not in an auth-ready state", .redirectDiscarded "/"]
    let req := tokenRequest env code init.code_verifier
    let ev2 := ev1 ++ [.fetchPost req]
    match fetchOut with
    | .netError e => (.errorReturned e, init, ev2)
    | .jsonError _ e => (.errorReturned e, init, ev2)
    | .jsonOk _ v => (.unitReturned, init, ev2 ++ [.logValues v, .redirectDiscarded "/"])

/-- The passkeyAuth server action, lines 46 to 79 of the source: generate the
CSRF state and PKCE verifier (passed in here, as randomness is external),
derive the challenge, store both nonces in one session update inside a try
block that returns the caught error, and finally return a redirect to the
authorize URL. A failed getSession or update leaves the session as it was. -/
def passkeyAuth (env : Env) (randomState codeVerifier : String) (init : SessionData)
    (getErr updErr : Option String) : ActionResult × SessionData × List Event :=
  let codeChallenge := deriveChallenge codeVerifier
  let redirectURI := encodeURI (envOr env.APP_REDIRECT_URI)
  let authURI := authorizeURL env redirectURI randomState codeChallenge
  match getErr with
  | some e => (.errorReturned e, init, [.sessionGet])
  | none =>
    match updErr with
    | some e => (.errorReturned e, init, [.sessionGet])
    | none =>
      let updated := { init with
        state_value := some randomState, code_verifier := some codeVerifier }
      (.redirectReturned authURI, updated, [.sessionGet, .sessionUpdated updated])

/-- Session left behind by logoutSession. Modelled from the spec: the
logoutSession helper lives in src/lib/server.ts, which is not part of the
provided sources; the spec describes it as destroying the session, so the
destroyed session carries no state value, no verifier and no user id. -/
def destroyedSession : SessionData := ⟨none, none, none⟩

/-- The getUser cached server function, lines 6 to 19 of the source: read the
session, fail when userId is absent, look the user up, fail when no record
exists, and on any caught failure log out and throw a redirect to /login. -/
def getUser (init : SessionData) (getErr : Option String) (findUnique : Nat → Option User) :
    ActionResult × SessionData × List Event :=
  match getErr with
  | some _ => (.redirectThrown "/login", destroyedSession, [.sessionGet, .logoutCall])
  | none =>
    match init.userId with
    | none => (.redirectThrown "/login", destroyedSession, [.sessionGet, .logoutCall])
    | some uid =>
      match findUnique uid with
      | none => (.redirectThrown "/login", destroyedSession,
          [.sessionGet, .dbFindUser uid, .logoutCall])
      | some u => (.userReturned u.id u.username, init, [.sessionGet, .dbFindUser uid])

/-- The logout server action, lines 141 to 145 of the source: log out the
session and return a redirect to /login. -/
def logout (_s : SessionData) : ActionResult × SessionData × List Event :=
  (.redirectReturned "/login", destroyedSession, [.logoutCall])

/-- JavaScript falsiness of an optional string parameter: absent or empty. -/
def jsFalsy (o : Option String) : Bool := o = none || o = some ""

/-- The Login route component receiving the provider callback. Its guard for a
missing code or state parameter only logs and calls redirect without
throwing or rendering a navigation, so the discarded Response does not stop
the component; onMount still invokes the authExchange action with the
parameters defaulted to the empty string. -/
def Login (codeParam stateParam : Option String) (env : Env) (init : SessionData)
    (getErr : Option String) (fetchOut : FetchOutcome) :
    ActionResult × SessionData × List Event :=
  let pre : List Event :=
    if jsFalsy codeParam || jsFalsy stateParam then
      [.consoleLog "The authentication response was malformed, returning the user to the home page",
       .redirectDiscarded "/"]
    else []
  let r := authExchange env (codeParam.getD "") (stateParam.getD "") init getErr fetchOut
  (r.1, r.2.1, pre ++ r.2.2)

/-- Test on whether an event is the token endpoint request. -/
def isFetch : Event → Bool
  | .fetchPost _ => true
  | _ => false

/-- Test on whether an event writes or destroys session state. -/
def isWrite : Event → Bool
  | .sessionUpdated _ => true
  | .logoutCall => true
  | _ => false

/-- Number of token endpoint requests in a trace. -/
def fetchCount (tr : List Event) : Nat := (tr.filter isFetch).length

/-- Number of session writes in a trace. -/
def writeCount (tr : List Event) : Nat := (tr.filter isWrite).length

/-- Test on whether an action result is a redirect, returned or thrown. -/
def isRedirect : ActionResult → Bool
  | .redirectReturned _ => true
  | .redirectThrown _ => true
  | _ => false

/-- Test on whether an action result is a returned error value. -/
def isErrorResult : ActionResult → Bool
  | .errorReturned _ => true
  | _ => false

/-- Session invariant of the spec: the CSRF token and the PKCE verifier are
present together or absent together. -/
def pairedNonces (s : SessionData) : Bool := s.state_value.isSome == s.code_verifier.isSome

/-- Fully populated concrete environment used in concrete executions. -/
def envA : Env :=
  ⟨some "https://example.com/login", some "tenant1", some "realm1",
   some "app1", some "client1", some "secret1"⟩

/-- Concrete session of a pending handshake, holding a stored CSRF token S1
and verifier V1. -/
def sdPending : SessionData := ⟨some "S1", some "V1", none⟩

/-- Concrete well-formed token response body. -/
def tokA : TokenJson := ⟨some "T", some "Bearer", some 86400, some "", some "JWT1"⟩

/-- Concrete provider error body, as a non-2xx response would carry. -/
def tokErr : TokenJson := ⟨none, none, none, none, none⟩

/-- Helper: authExchange leaves the session data untouched and its trace holds
no session write, on every path. -/
theorem authExchange_frame (env : Env) (code state : String) (init : SessionData)
    (getErr : Option String) (fetchOut : FetchOutcome) :
    (authExchange env code state init getErr fetchOut).2.1 = init ∧
    writeCount (authExchange env code state init getErr fetchOut).2.2 = 0 := by
  unfold authExchange writeCount
  cases getErr <;> cases fetchOut <;>
    simp [isFetch, isWrite, List.filter_append] <;> split <;> simp [isWrite]

/-- Helper: the filtered fetch events of an authExchange trace, when getSession
succeeds, are exactly one request with the assembled fields. -/
theorem authExchange_fetch_events (env : Env) (code state : String) (init : SessionData)
    (fetchOut : FetchOutcome) :
    (authExchange env code state init none fetchOut).2.2.filter isFetch =
      [Event.fetchPost (tokenRequest env code init.code_verifier)] := by
  unfold authExchange
  cases fetchOut <;> simp [List.filter_append, isFetch] <;> split <;> simp [isFetch]

/-- Claim C1: the spec says a callback whose state does not match the stored
state_value is rejected before any token endpoint call. The source logs the
mismatch but neither returns nor throws the redirect Response it builds, so
execution falls through into fetch: with stored state S1 and callback state
WRONG the trace still holds exactly one token endpoint request, right after
the mismatch log. -/
theorem authExchange_mismatch_still_calls_token_endpoint :
    sdPending.state_value = some "S1" ∧
    Event.consoleLog "Session is not in an auth-ready state" ∈
      (authExchange envA "ABC" "WRONG" sdPending none (.jsonOk 200 tokA)).2.2 ∧
    fetchCount (authExchange envA "ABC" "WRONG" sdPending none (.jsonOk 200 tokA)).2.2 = 1 ∧
    fetchCount (authExchange envA "ABC" "WRONG" destroyedSession none (.jsonOk 200 tokA)).2.2
      = 1 := by decide

/-- Claim C2: the spec says a successful exchange stores a resolved userId and
clears state_value and code_verifier. The source only destructures and logs
the token response and never writes the session, so after a fully
successful exchange the session still holds the original nonces and no
userId. -/
theorem authExchange_success_leaves_session_unwritten :
    (authExchange envA "ABC" "S1" sdPending none (.jsonOk 200 tokA)).1 = .unitReturned ∧
    (authExchange envA "ABC" "S1" sdPending none (.jsonOk 200 tokA)).2.1 = sdPending ∧
    sdPending.userId = none ∧
    sdPending.state_value = some "S1" ∧
    sdPending.code_verifier = some "V1" := by decide

/-- Claim C3: the spec says a callback missing code or state never reaches the
session lookup or the network. The Login component only logs and builds a
discarded redirect Response, then mounts and invokes the exchange action
with empty-string defaults, which reads the session and issues the token
request: with the code parameter absent, the trace holds the malformed
callback log and still a getSession event and one token endpoint request. -/
theorem login_missing_code_still_reaches_session_and_network :
    Event.consoleLog
        "The authentication response was malformed, returning the user to the home page" ∈
      (Login none (some "S1") envA sdPending none (.jsonOk 200 tokA)).2.2 ∧
    Event.sessionGet ∈ (Login none (some "S1") envA sdPending none (.jsonOk 200 tokA)).2.2 ∧
    fetchCount (Login none (some "S1") envA sdPending none (.jsonOk 200 tokA)).2.2 = 1 := by
  decide

/-- Claim C4: the spec says authExchange always results in a redirect, to the
main entry point on success and on any caught error. In the source the
final redirect call on line 138 is neither returned nor thrown, so a
successful run returns undefined, and the catch block returns the raw
error value to the caller; neither outcome is a redirect. -/
theorem authExchange_result_never_a_redirect :
    (authExchange envA "ABC" "S1" sdPending none (.jsonOk 200 tokA)).1
      = .unitReturned ∧
    isRedirect (authExchange envA "ABC" "S1" sdPending none (.jsonOk 200 tokA)).1 = false ∧
    (authExchange envA "ABC" "S1" sdPending none (.netError "ECONNREFUSED")).1
      = .errorReturned "ECONNREFUSED" ∧
    isRedirect (authExchange envA "ABC" "S1" sdPending none (.netError "ECONNREFUSED")).1
      = false := by decide

/-- Claim C5, counterexample: the claim says the exchange fails whenever the
provider answers with a non-2xx status. The source never reads the status:
a 400 response carrying a well-formed JSON error body parses fine and the
action completes without propagating any error value. -/
theorem authExchange_non2xx_not_an_error :
    isErrorResult (authExchange envA "ABC" "S1" sdPending none (.jsonOk 400 tokErr)).1
      = false := by decide

/-- Claim C5, amended: the token exchange propagates an error value to the
caller on a network error or a malformed JSON body, and the request is
never retried, no trace ever holding more than one token endpoint request;
a non-2xx status with a parseable body does not by itself cause failure. -/
theorem authExchange_fails_on_network_or_parse_error_never_retries
    (env : Env) (code state : String) (init : SessionData) (getErr : Option String)
    (fetchOut : FetchOutcome) (e : String) (status : Nat) :
    (authExchange env code state init none (.netError e)).1 = .errorReturned e ∧
    (authExchange env code state init none (.jsonError status e)).1 = .errorReturned e ∧
    fetchCount (authExchange env code state init getErr fetchOut).2.2 ≤ 1 := by
  refine ⟨?_, ?_, ?_⟩
  · unfold authExchange
    simp
  · unfold authExchange
    simp
  · unfold authExchange fetchCount
    cases getErr <;> cases fetchOut <;>
      simp [List.filter_append, isFetch] <;> split <;> simp [isFetch]

/-- Claim C6: every operation preserves the pairing of state_value and
code_verifier; passkeyAuth writes both nonces in one session update whose
trace holds exactly one write, and when getSession or the update fails the
action returns the error value, leaves the session as it was, performs no
write and does not redirect the user agent to the provider. -/
theorem passkeyAuth_pair_invariant_and_atomic_update
    (env : Env) (rs cv : String) (init : SessionData) (getErr updErr : Option String)
    (hinv : pairedNonces init = true) :
    pairedNonces (passkeyAuth env rs cv init getErr updErr).2.1 = true ∧
    (getErr = none → updErr = none →
      (passkeyAuth env rs cv init getErr updErr).2.1.state_value = some rs ∧
      (passkeyAuth env rs cv init getErr updErr).2.1.code_verifier = some cv ∧
      writeCount (passkeyAuth env rs cv init getErr updErr).2.2 = 1 ∧
      (passkeyAuth env rs cv init getErr updErr).1 = .redirectReturned
        (authorizeURL env (encodeURI (envOr env.APP_REDIRECT_URI)) rs (deriveChallenge cv))) ∧
    (∀ e, getErr = some e →
      (passkeyAuth env rs cv init getErr updErr).1 = .errorReturned e ∧
      (passkeyAuth env rs cv init getErr updErr).2.1 = init ∧
      writeCount (passkeyAuth env rs cv init getErr updErr).2.2 = 0 ∧
      isRedirect (passkeyAuth env rs cv init getErr updErr).1 = false) ∧
    (∀ e, getErr = none → updErr = some e →
      (passkeyAuth env rs cv init getErr updErr).1 = .errorReturned e ∧
      (passkeyAuth env rs cv init getErr updErr).2.1 = init ∧
      writeCount (passkeyAuth env rs cv init getErr updErr).2.2 = 0 ∧
      isRedirect (passkeyAuth env rs cv init getErr updErr).1 = false) ∧
    (∀ env2 c s gE fo, pairedNonces (authExchange env2 c s init gE fo).2.1 = true) ∧
    (∀ gE fu, pairedNonces (getUser init gE fu).2.1 = true) ∧
    pairedNonces (logout init).2.1 = true := by
  have hinv2 : init.state_value.isSome = init.code_verifier.isSome := by
    simpa [pairedNonces] using hinv
  refine ⟨?_, ?_, ?_, ?_, ?_, ?_, rfl⟩
  · cases getErr <;> cases updErr <;>
      simp [passkeyAuth, pairedNonces, isRedirect, writeCount, isWrite] <;> exact hinv2
  · intro h1 h2
    subst h1; subst h2
    simp [passkeyAuth, writeCount, isWrite]
  · intro e he
    subst he
    simp [passkeyAuth, writeCount, isWrite, isRedirect]
  · intro e h1 h2
    subst h1; subst h2
    simp [passkeyAuth, writeCount, isWrite, isRedirect]
  · intro env2 c s gE fo
    rw [(authExchange_frame env2 c s init gE fo).1]
    exact hinv
  · intro gE fu
    cases gE with
    | some e => simp [getUser, pairedNonces, destroyedSession]
    | none =>
      cases hu : init.userId with
      | none => simp [getUser, hu, pairedNonces, destroyedSession]
      | some uid =>
        cases hfu : fu uid with
        | none => simp [getUser, hu, hfu, pairedNonces, destroyedSession]
        | some u => simpa [getUser, hu, hfu, pairedNonces] using hinv

/-- Claim C6 witness: a concrete initiation from an empty session stores the
pair S1 and V1 in one write and returns the authorize redirect. -/
theorem passkeyAuth_pair_invariant_witness :
    pairedNonces (passkeyAuth envA "S1" "V1" destroyedSession none none).2.1 = true ∧
    (passkeyAuth envA "S1" "V1" destroyedSession none none).2.1.state_value = some "S1" ∧
    (passkeyAuth envA "S1" "V1" destroyedSession none none).2.1.code_verifier = some "V1" ∧
    writeCount (passkeyAuth envA "S1" "V1" destroyedSession none none).2.2 = 1 := by
  have h := passkeyAuth_pair_invariant_and_atomic_update envA "S1" "V1" destroyedSession
    none none (by decide)
  exact ⟨h.1, (h.2.1 rfl rfl).1, (h.2.1 rfl rfl).2.1, (h.2.1 rfl rfl).2.2.1⟩

/-- Claim C7: whenever resolving the current user fails, because getSession
throws, because the session has no userId, or because no user record exists
for the stored id, getUser logs the session out and throws a redirect to
the login entry point, leaving a destroyed session. -/
theorem getUser_failure_logs_out_and_redirects_login
    (init : SessionData) (getErr : Option String) (findUnique : Nat → Option User)
    (h : getErr ≠ none ∨ init.userId = none ∨
      ∃ uid, init.userId = some uid ∧ findUnique uid = none) :
    (getUser init getErr findUnique).1 = .redirectThrown "/login" ∧
    Event.logoutCall ∈ (getUser init getErr findUnique).2.2 ∧
    (getUser init getErr findUnique).2.1 = destroyedSession := by
  unfold getUser
  rcases h with h | h | ⟨uid, h1, h2⟩
  · cases getErr with
    | none => exact absurd rfl h
    | some e => simp
  · cases getErr with
    | some e => simp
    | none => simp [h]
  · cases getErr with
    | some e => simp
    | none => simp [h1, h2]

/-- Claim C7 witness: a session with a userId pointing at a deleted user is
logged out and redirected to /login. -/
theorem getUser_failure_witness :
    (getUser ⟨none, none, some 7⟩ none (fun _ => none)).1 = .redirectThrown "/login" ∧
    Event.logoutCall ∈ (getUser ⟨none, none, some 7⟩ none (fun _ => none)).2.2 ∧
    (getUser ⟨none, none, some 7⟩ none (fun _ => none)).2.1 = destroyedSession :=
  getUser_failure_logs_out_and_redirects_login ⟨none, none, some 7⟩ none (fun _ => none)
    (Or.inr (Or.inr ⟨7, rfl, rfl⟩))

/-- Claim C8: whenever getSession succeeds and the session stores a verifier,
the authExchange trace holds exactly one token endpoint request, a POST
with form-urlencoded content type, HTTP Basic authorization over the
base64 of client id colon client secret, and a body carrying the
authorization-code grant, the callback code, the stored verifier and the
configured redirect URI. -/
theorem authExchange_single_post_request_shape
    (env : Env) (code state : String) (init : SessionData) (fetchOut : FetchOutcome)
    (cv : String) (hcv : init.code_verifier = some cv) :
    (authExchange env code state init none fetchOut).2.2.filter isFetch =
      [Event.fetchPost
        { url := tokenURL env
          method := "POST"
          contentType := "application/x-www-form-urlencoded"
          authorization :=
            "Basic " ++ btoa (envOr env.BI_CLIENT_ID ++ ":" ++ envOr env.BI_CLIENT_SECRET)
          body := "grant_type=authorization_code&code=" ++ code ++ "&code_verifier=" ++ cv ++
            "&redirect_uri=" ++ encodeURI (envOr env.APP_REDIRECT_URI) }] := by
  rw [authExchange_fetch_events]
  simp [tokenRequest, hcv, jsStr]

/-- Claim C8 witness: the concrete pending session with verifier V1 and
callback code ABC produces exactly that single request. -/
theorem authExchange_single_post_request_shape_witness :
    (authExchange envA "ABC" "S1" sdPending none (.jsonOk 200 tokA)).2.2.filter isFetch =
      [Event.fetchPost
        { url := tokenURL envA
          method := "POST"
          contentType := "application/x-www-form-urlencoded"
          authorization :=
            "Basic " ++ btoa (envOr envA.BI_CLIENT_ID ++ ":" ++ envOr envA.BI_CLIENT_SECRET)
          body := "grant_type=authorization_code&code=" ++ "ABC" ++ "&code_verifier=" ++ "V1" ++
            "&redirect_uri=" ++ encodeURI (envOr envA.APP_REDIRECT_URI) }] :=
  authExchange_single_post_request_shape envA "ABC" "S1" sdPending (.jsonOk 200 tokA) "V1" rfl

/-- Helper: every index yields a character of the URL-safe base64 alphabet. -/
theorem b64c_mem (i : Nat) : b64c i ∈ b64urlTable := by
  unfold b64c
  have h : i % 64 < b64urlTable.length := by
    have : i % 64 < 64 := Nat.mod_lt _ (by omega)
    simpa [b64urlTable] using this
  rw [List.getD_eq_getElem _ _ h]
  exact List.getElem_mem h

/-- Helper: every character emitted by the URL-safe base64 encoder belongs to
its 64-character alphabet. -/
theorem base64urlEncode_mem (l : List Nat) (c : Char) (hc : c ∈ base64urlEncode l) :
    c ∈ b64urlTable := by
  induction l using base64urlEncode.induct with
  | case1 b0 b1 b2 rest ih =>
      simp only [base64urlEncode, List.mem_cons] at hc
      rcases hc with h | h | h | h | h
      · exact h ▸ b64c_mem _
      · exact h ▸ b64c_mem _
      · exact h ▸ b64c_mem _
      · exact h ▸ b64c_mem _
      · exact ih h
  | case2 b0 b1 =>
      simp only [base64urlEncode, List.mem_cons, List.not_mem_nil, or_false] at hc
      rcases hc with h | h | h <;> exact h ▸ b64c_mem _
  | case3 b0 =>
      simp only [base64urlEncode, List.mem_cons, List.not_mem_nil, or_false] at hc
      rcases hc with h | h <;> exact h ▸ b64c_mem _
  | case4 =>
      simp [base64urlEncode] at hc

/-- Claim C9: challenge derivation is the pure function taking a verifier to
the URL-safe base64 encoding, without padding, of the 32-byte SHA-256
digest of the UTF-8 bytes of the verifier: it is deterministic, its result
always has 43 characters drawn from the URL-safe alphabet, and no output
character is the padding character. -/
theorem deriveChallenge_pure_sha256_base64url (v : String) :
    deriveChallenge v = String.mk (base64urlEncode (sha256 (strBytes v))) ∧
    (∀ w, v = w → deriveChallenge v = deriveChallenge w) ∧
    (sha256 (strBytes v)).length = 32 ∧
    (deriveChallenge v).length = 43 ∧
    ∀ c ∈ (deriveChallenge v).data, c ∈ b64urlTable ∧ c ≠ '=' := by
  refine ⟨rfl, fun w hw => hw ▸ rfl, rfl, rfl, fun c hc => ?_⟩
  have hm : c ∈ b64urlTable := base64urlEncode_mem (sha256 (strBytes v)) c hc
  refine ⟨hm, ?_⟩
  intro h
  subst h
  revert hm
  decide

/-- Claim C9 witness: the derivation on the concrete verifier V1 matches the
composition, is 43 characters long and holds no padding character. -/
theorem deriveChallenge_pure_witness :
    deriveChallenge "V1" = String.mk (base64urlEncode (sha256 (strBytes "V1"))) ∧
    deriveChallenge "V1" = deriveChallenge "V1" ∧
    (deriveChallenge "V1").length = 43 ∧
    ('=' ∈ (deriveChallenge "V1").data → False) := by
  have h := deriveChallenge_pure_sha256_base64url "V1"
  exact ⟨h.1, h.2.1 "V1" rfl, h.2.2.2.1, fun hc => (h.2.2.2.2 _ hc).2 rfl⟩

/-- Claim C10: authExchange never writes the session on any path, state
mismatch, exchange failure or success alike: the resulting session data is
exactly the incoming data, the trace holds no session write, and in
particular state_value, code_verifier and userId keep their values. -/
theorem authExchange_session_never_written
    (env : Env) (code state : String) (init : SessionData) (getErr : Option String)
    (fetchOut : FetchOutcome) :
    (authExchange env code state init getErr fetchOut).2.1 = init ∧
    writeCount (authExchange env code state init getErr fetchOut).2.2 = 0 ∧
    (authExchange env code state init getErr fetchOut).2.1.state_value = init.state_value ∧
    (authExchange env code state init getErr fetchOut).2.1.code_verifier = init.code_verifier ∧
    (authExchange env code state init getErr fetchOut).2.1.userId = init.userId := by
  have h := authExchange_frame env code state init getErr fetchOut
  exact ⟨h.1, h.2, by rw [h.1], by rw [h.1], by rw [h.1]⟩
